import Mathlib

/-!
Shallow embedding of the Skia sample slide `SampleClipDrawMatch.cpp`
(the GeometryMatchProbe of the specification).

Scalars are modelled as rationals; times are integer milliseconds.
Each drawing routine is embedded as the trace of SkCanvas operations it
issues, and a small canvas state machine interprets those traces for the
claims about clip scoping.
-/

/-- The possible geometric combinations to test (`enum Geometry`). -/
inductive Geometry
  | kRect
  | kRRect
  | kCircle
  | kConvexPath
  | kConcavePath
  | kRectAndRect
  | kRectAndRRect
  | kRectAndConvex
  | kRectAndConcave
deriving DecidableEq, Repr

/-- The basic rect used is [kMin,kMin]..[kMax,kMax]. -/
def kMin : ℚ := 100.5

def kMid : ℚ := 200.0

def kMax : ℚ := 299.5

/-- `SkPoint`: a 2D point. -/
structure SkPoint where
  x : ℚ
  y : ℚ
deriving DecidableEq, Repr

/-- `SkRect`: left/top/right/bottom. -/
structure SkRect where
  l : ℚ
  t : ℚ
  r : ℚ
  b : ℚ
deriving DecidableEq, Repr

def SkRect.MakeLTRB (l t r b : ℚ) : SkRect := ⟨l, t, r, b⟩

def SkRect.MakeWH (w h : ℚ) : SkRect := ⟨0, 0, w, h⟩

/-- `SkRect::offset(dx, dy)`: translate the rectangle. -/
def SkRect.offset (a : SkRect) (dx dy : ℚ) : SkRect :=
  ⟨a.l + dx, a.t + dy, a.r + dx, a.b + dy⟩

/-- `SkRRect`, restricted to the two construction forms the sample uses:
`setRectXY(rect, rx, ry)` and `setOval(rect)`. -/
inductive SkRRect
  | rectXY (rect : SkRect) (rx ry : ℚ)
  | oval (rect : SkRect)
deriving DecidableEq, Repr

/-- The bounding rectangle of an `SkRRect`. -/
def SkRRect.rect : SkRRect → SkRect
  | .rectXY r _ _ => r
  | .oval r => r

/-- `SkPath`, restricted to the single-contour polygonal paths the sample
builds with `moveTo` / `lineTo` / `close`. -/
structure SkPath where
  points : List SkPoint
  closed : Bool
deriving DecidableEq, Repr

def SkPath.empty : SkPath := ⟨[], false⟩

def SkPath.moveTo (p : SkPath) (x y : ℚ) : SkPath :=
  ⟨p.points ++ [⟨x, y⟩], p.closed⟩

def SkPath.lineTo (p : SkPath) (x y : ℚ) : SkPath :=
  ⟨p.points ++ [⟨x, y⟩], p.closed⟩

def SkPath.close (p : SkPath) : SkPath := ⟨p.points, true⟩

/-- `SkPath::offset(dx, dy)`: translate every point of the path. -/
def SkPath.offset (p : SkPath) (dx dy : ℚ) : SkPath :=
  ⟨p.points.map (fun q => ⟨q.x + dx, q.y + dy⟩), p.closed⟩

/-- The bounding box of a path (none for an empty path). -/
def SkPath.bounds (p : SkPath) : Option SkRect :=
  match p.points with
  | [] => none
  | q :: qs =>
    some (qs.foldl
      (fun a s => ⟨min a.l s.x, min a.t s.y, max a.r s.x, max a.b s.y⟩)
      ⟨q.x, q.y, q.x, q.y⟩)

/-- `create_rect`: the base rect translated by `offset`. -/
def create_rect (offset : SkPoint) : SkRect :=
  (SkRect.MakeLTRB kMin kMin kMax kMax).offset offset.x offset.y

/-- `create_rrect`: `setRectXY(create_rect(offset), 10, 10)`. -/
def create_rrect (offset : SkPoint) : SkRRect :=
  .rectXY (create_rect offset) 10 10

/-- `create_circle`: `setOval(create_rect(offset))`. -/
def create_circle (offset : SkPoint) : SkRRect :=
  .oval (create_rect offset)

/-- `create_convex_path`: triangle through the base square, then offset. -/
def create_convex_path (offset : SkPoint) : SkPath :=
  ((((SkPath.empty.moveTo kMin kMin).lineTo kMax kMax).lineTo kMin kMax).close).offset
    offset.x offset.y

/-- `create_concave_path`: eight-point star-like concave polygon, then offset. -/
def create_concave_path (offset : SkPoint) : SkPath :=
  (((((((((SkPath.empty.moveTo kMin kMin).lineTo kMid 105.0).lineTo kMax
    kMin).lineTo 295.0 kMid).lineTo kMax kMax).lineTo kMid 295.0).lineTo kMin
    kMax).lineTo 105.0 kMid).close).offset offset.x offset.y

/-- `SkRegion::Op`, restricted to the two ops the sample uses. -/
inductive RegionOp
  | replace
  | intersect
deriving DecidableEq, Repr

/-- A shape passed to a clip call. -/
inductive ClipShape
  | rect (r : SkRect)
  | rrect (rr : SkRRect)
  | path (p : SkPath)
deriving DecidableEq, Repr

def SK_ColorRED : ℕ := 0xFFFF0000

def SK_ColorBLACK : ℕ := 0xFF000000

/-- `SkPaint`, restricted to the fields the sample sets. -/
structure SkPaint where
  antiAlias : Bool
  color : ℕ
deriving DecidableEq, Repr

/-- A default paint (`SkPaint p;`) with a color set: AA defaults to off. -/
def paintWithColor (c : ℕ) : SkPaint := ⟨false, c⟩

/-- One canvas operation issued by the sample. -/
inductive CanvasOp
  | save
  | restoreToCount (count : ℕ)
  | clipRect (r : SkRect) (op : RegionOp) (aa : Bool)
  | clipRRect (rr : SkRRect) (op : RegionOp) (aa : Bool)
  | clipPath (p : SkPath) (op : RegionOp) (aa : Bool)
  | drawRect (r : SkRect) (paint : SkPaint)
  | drawRRect (rr : SkRRect) (paint : SkPaint)
  | drawPath (p : SkPath) (paint : SkPaint)
deriving DecidableEq, Repr

/-- Is this op one of the draw calls (as opposed to save/restore/clip)? -/
def CanvasOp.isDraw : CanvasOp → Bool
  | .drawRect _ _ => true
  | .drawRRect _ _ => true
  | .drawPath _ _ => true
  | _ => false

/-- The clip calls of a trace, as (shape, region op, anti-alias) triples. -/
def clipOpsOf (ops : List CanvasOp) : List (ClipShape × RegionOp × Bool) :=
  ops.filterMap fun o =>
    match o with
    | .clipRect r op aa => some (.rect r, op, aa)
    | .clipRRect rr op aa => some (.rrect rr, op, aa)
    | .clipPath p op aa => some (.path p, op, aa)
    | _ => none

/-- The full-device rect `bigR = SkRect::MakeWH(size.width(), size.height())`. -/
def bigRect (size : ℤ × ℤ) : SkRect :=
  SkRect.MakeWH (size.1 : ℚ) (size.2 : ℚ)

/-- Trace of `draw_clipped_geom(canvas, offset, geom, useAA)`.

`count` is the value returned by the initial `canvas->save()` (the canvas's
save count on entry) and `size` is `canvas->getDeviceSize()`. -/
def draw_clipped_geom (count : ℕ) (size : ℤ × ℤ) (offset : SkPoint)
    (geom : Geometry) (useAA : Bool) : List CanvasOp :=
  CanvasOp.save ::
  (match geom with
   | .kRect => [.clipRect (create_rect offset) .replace useAA]
   | .kRRect => [.clipRRect (create_rrect offset) .replace useAA]
   | .kCircle => [.clipRRect (create_circle offset) .replace useAA]
   | .kConvexPath => [.clipPath (create_convex_path offset) .replace useAA]
   | .kConcavePath => [.clipPath (create_concave_path offset) .replace useAA]
   | .kRectAndRect =>
      [.clipRect ((create_rect offset).offset (-100.0) (-100.0)) .replace true,
       .clipRect (create_rect offset) .intersect useAA]
   | .kRectAndRRect =>
      [.clipRect ((create_rect offset).offset (-100.0) (-100.0)) .replace true,
       .clipRRect (create_rrect offset) .intersect useAA]
   | .kRectAndConvex =>
      [.clipRect ((create_rect offset).offset (-100.0) (-100.0)) .replace true,
       .clipPath (create_convex_path offset) .intersect useAA]
   | .kRectAndConcave =>
      [.clipRect ((create_rect offset).offset (-100.0) (-100.0)) .replace true,
       .clipPath (create_concave_path offset) .intersect useAA]) ++
  [CanvasOp.drawRect (bigRect size) (paintWithColor SK_ColorRED),
   CanvasOp.restoreToCount count]

/-- Trace of `draw_normal_geom(canvas, offset, geom, useAA)`. -/
def draw_normal_geom (offset : SkPoint) (geom : Geometry) (useAA : Bool) :
    List CanvasOp :=
  match geom with
  | .kRect => [.drawRect (create_rect offset) ⟨useAA, SK_ColorBLACK⟩]
  | .kRectAndRect => [.drawRect (create_rect offset) ⟨useAA, SK_ColorBLACK⟩]
  | .kRRect => [.drawRRect (create_rrect offset) ⟨useAA, SK_ColorBLACK⟩]
  | .kRectAndRRect => [.drawRRect (create_rrect offset) ⟨useAA, SK_ColorBLACK⟩]
  | .kCircle => [.drawRRect (create_circle offset) ⟨useAA, SK_ColorBLACK⟩]
  | .kConvexPath => [.drawPath (create_convex_path offset) ⟨useAA, SK_ColorBLACK⟩]
  | .kRectAndConvex => [.drawPath (create_convex_path offset) ⟨useAA, SK_ColorBLACK⟩]
  | .kConcavePath => [.drawPath (create_concave_path offset) ⟨useAA, SK_ColorBLACK⟩]
  | .kRectAndConcave => [.drawPath (create_concave_path offset) ⟨useAA, SK_ColorBLACK⟩]

/-- Trace of `ClipDrawMatchView::drawGeometry(canvas, offset, useAA)`.

`count` is the canvas's save count when `drawGeometry` is entered (the value
the `canvas->save()` inside `draw_clipped_geom` returns), `size` the device
size, `fGeom` and `fClipFirst` the view's fields. -/
def drawGeometry (count : ℕ) (size : ℤ × ℤ) (offset : SkPoint)
    (fGeom : Geometry) (fClipFirst : Bool) (useAA : Bool) : List CanvasOp :=
  (if fClipFirst then draw_clipped_geom count size offset fGeom useAA else []) ++
  draw_normal_geom offset fGeom useAA ++
  (if fClipFirst then [] else draw_clipped_geom count size offset fGeom useAA)

/-- The clip in effect on a canvas: the list of (shape, anti-alias) records
accumulated since the last replace. -/
abbrev Clip := List (ClipShape × Bool)

/-- Applying one clip call: replace discards the old clip, intersect adds. -/
def applyClip (cl : Clip) (sh : ClipShape) (op : RegionOp) (aa : Bool) : Clip :=
  match op with
  | .replace => [(sh, aa)]
  | .intersect => cl ++ [(sh, aa)]

/-- The canvas state the sample touches: device size, the stack of saved
clips, and the current clip. -/
structure Canvas where
  deviceSize : ℤ × ℤ
  stack : List Clip
  clip : Clip
deriving DecidableEq

/-- `SkCanvas::getSaveCount()`: 1 for a freshly constructed canvas, plus one
per unbalanced save. -/
def Canvas.saveCount (c : Canvas) : ℕ := c.stack.length + 1

/-- Pop saved clips while the save count exceeds `n`
(the loop inside `SkCanvas::restoreToCount`). -/
def restoreLoop (n : ℕ) : List Clip → Clip → List Clip × Clip
  | [], cl => ([], cl)
  | s :: st, cl =>
    if n < st.length + 2 then restoreLoop n st s else (s :: st, cl)

/-- Interpret one canvas operation. Draw calls do not change canvas state. -/
def runOp (c : Canvas) : CanvasOp → Canvas
  | .save => { c with stack := c.clip :: c.stack }
  | .restoreToCount n =>
    { c with
      stack := (restoreLoop n c.stack c.clip).1,
      clip := (restoreLoop n c.stack c.clip).2 }
  | .clipRect r op aa => { c with clip := applyClip c.clip (.rect r) op aa }
  | .clipRRect rr op aa => { c with clip := applyClip c.clip (.rrect rr) op aa }
  | .clipPath p op aa => { c with clip := applyClip c.clip (.path p) op aa }
  | .drawRect _ _ => c
  | .drawRRect _ _ => c
  | .drawPath _ _ => c

/-- Interpret a trace of canvas operations. -/
def run (c : Canvas) (ops : List CanvasOp) : Canvas := ops.foldl runOp c

/-- The view's mutable state: the selected geometry and the draw-order flag. -/
structure ViewState where
  fGeom : Geometry
  fClipFirst : Bool
deriving DecidableEq, Repr

/-- The `ClipDrawMatchView` constructor state: `fGeom(kRect_Geometry)`,
`fClipFirst(true)`. -/
def initViewState : ViewState := ⟨.kRect, true⟩

/-- The character dispatch of `ClipDrawMatchView::onQuery`: keys 1-9 select a
geometry, key t toggles the draw order, every other character falls through to
the inherited handler without touching the state. -/
def handleChar (uni : Char) (s : ViewState) : ViewState :=
  if uni = '1' then { s with fGeom := .kRect }
  else if uni = '2' then { s with fGeom := .kRRect }
  else if uni = '3' then { s with fGeom := .kCircle }
  else if uni = '4' then { s with fGeom := .kConvexPath }
  else if uni = '5' then { s with fGeom := .kConcavePath }
  else if uni = '6' then { s with fGeom := .kRectAndRect }
  else if uni = '7' then { s with fGeom := .kRectAndRRect }
  else if uni = '8' then { s with fGeom := .kRectAndConvex }
  else if uni = '9' then { s with fGeom := .kRectAndConcave }
  else if uni = 't' then { s with fClipFirst := !s.fClipFirst }
  else s

/-- Linear interpolation between two rationals. -/
def lerp (a b f : ℚ) : ℚ := a + (b - a) * f

/-- An `SkInterpolator` as the sample configures it: a repeat count and a
list of keyframes, each a time (integer milliseconds) with a pair of values. -/
structure SkInterpolator where
  repeatCount : ℚ
  frames : List (ℤ × ℚ × ℚ)

/-- Walk the keyframes and linearly interpolate inside the first segment
whose end time is at or after the query time. -/
def seekFrames : List (ℤ × ℚ × ℚ) → ℤ → ℚ × ℚ
  | [], _ => (0, 0)
  | [(_, v)], _ => v
  | (t1, v1) :: (t2, v2) :: rest, t =>
    if t ≤ t2 then
      let f : ℚ := ((t - t1 : ℤ) : ℚ) / ((t2 - t1 : ℤ) : ℚ)
      (lerp v1.1 v2.1 f, lerp v1.2 v2.2 f)
    else seekFrames ((t2, v2) :: rest) t

/-- The time of the last keyframe, with a default for an empty list. -/
def lastFrameTime : ℤ → List (ℤ × ℚ × ℚ) → ℤ
  | d, [] => d
  | _, (t, _) :: rest => lastFrameTime t rest

/-- Modelled from the spec: `SkInterpolator::timeToValues` is not part of the
sources (only its caller is); the spec describes it as mapping time to a
cyclically repeating, piecewise-linear interpolation of the keyframes,
looping indefinitely, with period equal to the span of the keyframe times.
The query time is reduced modulo that span and the surrounding keyframe pair
is interpolated linearly. -/
def SkInterpolator.timeToValues (it : SkInterpolator) (t : ℤ) : ℚ × ℚ :=
  match it.frames with
  | [] => (0, 0)
  | (t0, _) :: rest =>
    let tn := lastFrameTime t0 rest
    seekFrames it.frames (t0 + (t - t0) % (tn - t0))

/-- The interpolator built by the `ClipDrawMatchView` constructor: repeat
count 999 and five keyframes at 1000 ms spacing starting at `base + 1000`
(where `base` is `SkTime::GetMSecs()` at construction), with values
(0,0), (0,1), (1,1), (1,0), (0,0). -/
def fTrans (base : ℤ) : SkInterpolator :=
  { repeatCount := 999,
    frames :=
      [(base + 1000, (0, 0)),
       (base + 2000, (0, 1)),
       (base + 3000, (1, 1)),
       (base + 4000, (1, 0)),
       (base + 5000, (0, 0))] }

/-- Trace of `ClipDrawMatchView::onDrawContent`: read the animated offset
from the interpolator at the current time, then run `drawGeometry` with
anti-aliasing false between a save / restoreToCount pair. `base` is the
construction time, `now` the current time, `c` the canvas at entry. -/
def onDrawContent (c : Canvas) (base now : ℤ) (s : ViewState) : List CanvasOp :=
  let trans := (fTrans base).timeToValues now
  CanvasOp.save ::
  drawGeometry (c.saveCount + 1) c.deviceSize ⟨trans.1, trans.2⟩
    s.fGeom s.fClipFirst false ++
  [CanvasOp.restoreToCount c.saveCount]

/-! ## Lemmas about the canvas state machine -/

lemma restoreLoop_self (st : List Clip) (cl : Clip) :
    restoreLoop (st.length + 1) st cl = (st, cl) := by
  cases st with
  | nil => rfl
  | cons s t =>
    unfold restoreLoop
    simp

lemma restoreLoop_save (st : List Clip) (cl x : Clip) :
    restoreLoop (st.length + 1) (cl :: st) x = (st, cl) := by
  unfold restoreLoop
  simp [restoreLoop_self]

/-! ## Claims -/

/-- C1: for every geometry kind, offset and anti-alias flag, `drawGeometry`
issues exactly the clipped pass followed by the direct pass when the
draw-order flag is clip-first, and exactly the direct pass followed by the
clipped pass otherwise; both passes receive the same geometry kind and the
same offset, and the trace contains exactly two draw calls. -/
theorem C1_two_draws_ordered_by_flag (count : ℕ) (size : ℤ × ℤ)
    (offset : SkPoint) (geom : Geometry) (useAA : Bool) :
    drawGeometry count size offset geom true useAA =
      draw_clipped_geom count size offset geom useAA ++
        draw_normal_geom offset geom useAA
    ∧ drawGeometry count size offset geom false useAA =
      draw_normal_geom offset geom useAA ++
        draw_clipped_geom count size offset geom useAA
    ∧ ∀ fClipFirst : Bool,
        (drawGeometry count size offset geom fClipFirst useAA).countP
          CanvasOp.isDraw = 2 := by
  refine ⟨by simp [drawGeometry], by simp [drawGeometry], ?_⟩
  intro fClipFirst
  cases fClipFirst <;> cases geom <;>
    simp [drawGeometry, draw_clipped_geom, draw_normal_geom, CanvasOp.isDraw]

/-- C3: for every geometry kind, offset and anti-alias flag, running the
clipped pass on any canvas state returns the canvas to exactly the state it
had on entry (the save on entry and the restoreToCount on exit bracket every
clip mutation), so no clip state leaks between passes or across frames. -/
theorem C3_clipped_pass_preserves_canvas (c : Canvas) (offset : SkPoint)
    (geom : Geometry) (useAA : Bool) :
    run c (draw_clipped_geom c.saveCount c.deviceSize offset geom useAA) = c := by
  cases geom <;>
    simp [run, draw_clipped_geom, runOp, Canvas.saveCount, restoreLoop_save,
      applyClip]

/-- C5 counterexample: delivering the draw-order toggle event twice does not
leave the state equal to delivering it once (starting from the initial
state, one toggle clears `fClipFirst`, two toggles set it again). -/
theorem C5_counterexample :
    handleChar 't' (handleChar 't' initViewState) ≠
      handleChar 't' initViewState := by
  decide

/-- C5 (amended): each geometry-selection event is idempotent, while the
draw-order toggle is an involution: delivering it twice restores the
original state (it is not idempotent). -/
theorem C5_selection_idempotent_toggle_involutive (s : ViewState) :
    handleChar '1' (handleChar '1' s) = handleChar '1' s
    ∧ handleChar '2' (handleChar '2' s) = handleChar '2' s
    ∧ handleChar '3' (handleChar '3' s) = handleChar '3' s
    ∧ handleChar '4' (handleChar '4' s) = handleChar '4' s
    ∧ handleChar '5' (handleChar '5' s) = handleChar '5' s
    ∧ handleChar '6' (handleChar '6' s) = handleChar '6' s
    ∧ handleChar '7' (handleChar '7' s) = handleChar '7' s
    ∧ handleChar '8' (handleChar '8' s) = handleChar '8' s
    ∧ handleChar '9' (handleChar '9' s) = handleChar '9' s
    ∧ handleChar 't' (handleChar 't' s) = s := by
  refine ⟨rfl, rfl, rfl, rfl, rfl, rfl, rfl, rfl, rfl, ?_⟩
  cases s
  simp [handleChar]

/-- C6: for every offset and anti-alias flag, the direct pass draws the
identical shape for each simple kind and its compound counterpart. -/
theorem C6_fallthrough_shares_direct_shape (offset : SkPoint) (useAA : Bool) :
    draw_normal_geom offset .kRect useAA =
      draw_normal_geom offset .kRectAndRect useAA
    ∧ draw_normal_geom offset .kRRect useAA =
      draw_normal_geom offset .kRectAndRRect useAA
    ∧ draw_normal_geom offset .kConvexPath useAA =
      draw_normal_geom offset .kRectAndConvex useAA
    ∧ draw_normal_geom offset .kConcavePath useAA =
      draw_normal_geom offset .kRectAndConcave useAA :=
  ⟨rfl, rfl, rfl, rfl⟩

/-- C9: a character event whose character is none of 1 through 9 or t leaves
the view state (selected geometry and draw-order flag) unchanged. -/
theorem C9_other_chars_leave_state (uni : Char) (s : ViewState)
    (h : uni ∉ ['1', '2', '3', '4', '5', '6', '7', '8', '9', 't']) :
    handleChar uni s = s := by
  simp only [List.mem_cons, List.mem_singleton, not_or] at h
  obtain ⟨h1, h2, h3, h4, h5, h6, h7, h8, h9, ht⟩ := h
  simp [handleChar, h1, h2, h3, h4, h5, h6, h7, h8, h9, ht]

/-- Witness for C9 at the concrete character x and a concrete state. -/
theorem C9_other_chars_leave_state_witness :
    'x' ∉ ['1', '2', '3', '4', '5', '6', '7', '8', '9', 't']
    ∧ handleChar 'x' ⟨Geometry.kCircle, false⟩ = ⟨Geometry.kCircle, false⟩ :=
  ⟨by decide, C9_other_chars_leave_state 'x' ⟨Geometry.kCircle, false⟩ (by decide)⟩

/-- C10: a newly constructed view selects the rectangle geometry with the
clip-first flag set, so its first frame traces the clipped pass before the
direct pass on the rectangle geometry. -/
theorem C10_initial_state (c : Canvas) (base now : ℤ) :
    initViewState.fGeom = Geometry.kRect
    ∧ initViewState.fClipFirst = true
    ∧ onDrawContent c base now initViewState =
        CanvasOp.save ::
          (draw_clipped_geom (c.saveCount + 1) c.deviceSize
              ⟨((fTrans base).timeToValues now).1,
               ((fTrans base).timeToValues now).2⟩ Geometry.kRect false ++
            draw_normal_geom
              ⟨((fTrans base).timeToValues now).1,
               ((fTrans base).timeToValues now).2⟩ Geometry.kRect false ++
            [CanvasOp.restoreToCount c.saveCount]) := by
  refine ⟨rfl, rfl, ?_⟩
  simp [onDrawContent, drawGeometry, initViewState]

/-- C2 counterexample: with the anti-alias flag false, the intersect op of
the compound clipped pass is issued with anti-aliasing false, not forced on
(only the replace of the outer rectangle is forced anti-aliased). -/
theorem C2_counterexample :
    (clipOpsOf (draw_clipped_geom 1 (500, 500) ⟨0, 0⟩ Geometry.kRectAndRect
        false)).map (fun e => (e.2.1, e.2.2)) =
      [(RegionOp.replace, true), (RegionOp.intersect, false)]
    ∧ ¬ ((clipOpsOf (draw_clipped_geom 1 (500, 500) ⟨0, 0⟩ Geometry.kRectAndRect
        false)).map (fun e => (e.2.1, e.2.2)) =
      [(RegionOp.replace, true), (RegionOp.intersect, true)]) := by
  exact ⟨rfl, by decide⟩

/-- C2 (amended): for each compound kind and every offset, the clipped pass
first replaces the clip with the base rectangle translated by the primary
offset and additionally by the fixed offset (-100,-100), with anti-aliasing
forced on for that replace, then intersects with the inner shape translated
by the primary offset using the caller's anti-alias flag; running the two
clip calls leaves the clip equal to the replace record followed by the
intersect record. -/
theorem C2_compound_clip_construction (count : ℕ) (size : ℤ × ℤ)
    (offset : SkPoint) (useAA : Bool) (c : Canvas) :
    clipOpsOf (draw_clipped_geom count size offset .kRectAndRect useAA) =
      [(.rect ((create_rect offset).offset (-100.0) (-100.0)), .replace, true),
       (.rect (create_rect offset), .intersect, useAA)]
    ∧ clipOpsOf (draw_clipped_geom count size offset .kRectAndRRect useAA) =
      [(.rect ((create_rect offset).offset (-100.0) (-100.0)), .replace, true),
       (.rrect (create_rrect offset), .intersect, useAA)]
    ∧ clipOpsOf (draw_clipped_geom count size offset .kRectAndConvex useAA) =
      [(.rect ((create_rect offset).offset (-100.0) (-100.0)), .replace, true),
       (.path (create_convex_path offset), .intersect, useAA)]
    ∧ clipOpsOf (draw_clipped_geom count size offset .kRectAndConcave useAA) =
      [(.rect ((create_rect offset).offset (-100.0) (-100.0)), .replace, true),
       (.path (create_concave_path offset), .intersect, useAA)]
    ∧ (run c ((draw_clipped_geom count size offset .kRectAndRect useAA).take
        3)).clip =
      [(.rect ((create_rect offset).offset (-100.0) (-100.0)), true),
       (.rect (create_rect offset), useAA)]
    ∧ (run c ((draw_clipped_geom count size offset .kRectAndRRect useAA).take
        3)).clip =
      [(.rect ((create_rect offset).offset (-100.0) (-100.0)), true),
       (.rrect (create_rrect offset), useAA)]
    ∧ (run c ((draw_clipped_geom count size offset .kRectAndConvex useAA).take
        3)).clip =
      [(.rect ((create_rect offset).offset (-100.0) (-100.0)), true),
       (.path (create_convex_path offset), useAA)]
    ∧ (run c ((draw_clipped_geom count size offset .kRectAndConcave useAA).take
        3)).clip =
      [(.rect ((create_rect offset).offset (-100.0) (-100.0)), true),
       (.path (create_concave_path offset), useAA)] := by
  refine ⟨rfl, rfl, rfl, rfl, ?_, ?_, ?_, ?_⟩ <;>
    simp [run, draw_clipped_geom, runOp, applyClip]

/-- C7: every frame plumbs anti-aliasing false into the geometry-vs-clip
comparison (the `drawGeometry` call inside `onDrawContent`), while for each
compound kind the clipped pass still issues the outer-rectangle replace with
anti-aliasing true regardless of that flag. -/
theorem C7_frame_aa_false_outer_aa_forced (c : Canvas) (base now : ℤ)
    (s : ViewState) (count : ℕ) (size : ℤ × ℤ) (offset : SkPoint)
    (useAA : Bool) :
    onDrawContent c base now s =
      CanvasOp.save ::
        drawGeometry (c.saveCount + 1) c.deviceSize
          ⟨((fTrans base).timeToValues now).1,
           ((fTrans base).timeToValues now).2⟩ s.fGeom s.fClipFirst false ++
        [CanvasOp.restoreToCount c.saveCount]
    ∧ (draw_clipped_geom count size offset .kRectAndRect useAA)[1]? =
      some (.clipRect ((create_rect offset).offset (-100.0) (-100.0))
        .replace true)
    ∧ (draw_clipped_geom count size offset .kRectAndRRect useAA)[1]? =
      some (.clipRect ((create_rect offset).offset (-100.0) (-100.0))
        .replace true)
    ∧ (draw_clipped_geom count size offset .kRectAndConvex useAA)[1]? =
      some (.clipRect ((create_rect offset).offset (-100.0) (-100.0))
        .replace true)
    ∧ (draw_clipped_geom count size offset .kRectAndConcave useAA)[1]? =
      some (.clipRect ((create_rect offset).offset (-100.0) (-100.0))
        .replace true) :=
  ⟨rfl, rfl, rfl, rfl, rfl⟩

/-- C8: the base (unoffset) shape of every geometry kind spans exactly the
square [100.5,100.5]-[299.5,299.5], and applying an offset only translates
the shape. -/
theorem C8_base_shape_fixed_square :
    create_rect ⟨0, 0⟩ = ⟨100.5, 100.5, 299.5, 299.5⟩
    ∧ (∀ o : SkPoint,
        create_rect o = (SkRect.MakeLTRB 100.5 100.5 299.5 299.5).offset o.x o.y)
    ∧ create_rrect ⟨0, 0⟩ = .rectXY (create_rect ⟨0, 0⟩) 10 10
    ∧ create_circle ⟨0, 0⟩ = .oval (create_rect ⟨0, 0⟩)
    ∧ (create_convex_path ⟨0, 0⟩).bounds = some ⟨100.5, 100.5, 299.5, 299.5⟩
    ∧ (create_concave_path ⟨0, 0⟩).bounds = some ⟨100.5, 100.5, 299.5, 299.5⟩
    ∧ (∀ o : SkPoint,
        create_convex_path o = (create_convex_path ⟨0, 0⟩).offset o.x o.y)
    ∧ (∀ o : SkPoint,
        create_concave_path o = (create_concave_path ⟨0, 0⟩).offset o.x o.y) := by
  refine ⟨by norm_num [create_rect, SkRect.MakeLTRB, SkRect.offset, kMin, kMax],
    fun o => rfl, rfl, rfl, ?_, ?_, ?_, ?_⟩
  · norm_num [create_convex_path, SkPath.bounds, SkPath.empty, SkPath.moveTo,
      SkPath.lineTo, SkPath.close, SkPath.offset, kMin, kMax, min_def, max_def,
      List.foldl]
  · norm_num [create_concave_path, SkPath.bounds, SkPath.empty, SkPath.moveTo,
      SkPath.lineTo, SkPath.close, SkPath.offset, kMin, kMid, kMax, min_def,
      max_def, List.foldl]
  all_goals
    intro o
    simp [create_convex_path, create_concave_path, SkPath.empty, SkPath.moveTo,
      SkPath.lineTo, SkPath.close, SkPath.offset]

lemma timeToValues_fTrans (base t : ℤ) :
    (fTrans base).timeToValues t =
      seekFrames (fTrans base).frames
        (base + 1000 + (t - (base + 1000)) % 4000) := by
  have h : base + 5000 - (base + 1000) = (4000 : ℤ) := by ring
  calc (fTrans base).timeToValues t
      = seekFrames (fTrans base).frames
          (base + 1000 + (t - (base + 1000)) % (base + 5000 - (base + 1000))) :=
        rfl
    _ = _ := by rw [h]

/-- C4: the animated offset is periodic with period 4000 ms for every query
time (the looping is unbounded in the model), and between consecutive
keyframes it is the linear interpolation through the values (0,0), (0,1),
(1,1), (1,0), (0,0) at 1000 ms spacing, continuous across the loop
boundary (the shared endpoints of adjacent segment formulas agree). -/
theorem C4_offset_periodic_piecewise_linear (base t : ℤ) :
    (fTrans base).timeToValues (t + 4000) = (fTrans base).timeToValues t
    ∧ ∀ u : ℤ, 0 ≤ u → u ≤ 1000 →
        ((fTrans base).timeToValues (base + 1000 + u) = (0, (u : ℚ) / 1000)
        ∧ (fTrans base).timeToValues (base + 2000 + u) = ((u : ℚ) / 1000, 1)
        ∧ (fTrans base).timeToValues (base + 3000 + u) = (1, 1 - (u : ℚ) / 1000)
        ∧ (fTrans base).timeToValues (base + 4000 + u) =
            (1 - (u : ℚ) / 1000, 0)) := by
  constructor
  · rw [timeToValues_fTrans, timeToValues_fTrans]
    congr 2
    omega
  · intro u hu0 hu1
    refine ⟨?_, ?_, ?_, ?_⟩
    · rw [timeToValues_fTrans]
      have hm : (base + 1000 + u - (base + 1000)) % 4000 = u := by omega
      rw [hm]
      simp only [fTrans, seekFrames, lerp]
      rw [if_pos (by omega : base + 1000 + u ≤ base + 2000)]
      simp only [Prod.mk.injEq]
      constructor <;> (push_cast; ring)
    · rw [timeToValues_fTrans]
      have hm : (base + 2000 + u - (base + 1000)) % 4000 = 1000 + u := by
        omega
      rw [hm]
      simp only [fTrans, seekFrames, lerp]
      by_cases h0 : u = 0
      · subst h0
        rw [if_pos (by omega : base + 1000 + (1000 + 0) ≤ base + 2000)]
        simp only [Prod.mk.injEq]
        constructor <;> (push_cast; field_simp; try ring)
      · rw [if_neg (by omega : ¬ base + 1000 + (1000 + u) ≤ base + 2000)]
        rw [if_pos (by omega : base + 1000 + (1000 + u) ≤ base + 3000)]
        simp only [Prod.mk.injEq]
        constructor <;> (push_cast; ring)
    · rw [timeToValues_fTrans]
      have hm : (base + 3000 + u - (base + 1000)) % 4000 = 2000 + u := by
        omega
      rw [hm]
      simp only [fTrans, seekFrames, lerp]
      by_cases h0 : u = 0
      · subst h0
        rw [if_neg (by omega : ¬ base + 1000 + (2000 + 0) ≤ base + 2000)]
        rw [if_pos (by omega : base + 1000 + (2000 + 0) ≤ base + 3000)]
        simp only [Prod.mk.injEq]
        constructor <;> (push_cast; field_simp; try ring)
      · rw [if_neg (by omega : ¬ base + 1000 + (2000 + u) ≤ base + 2000)]
        rw [if_neg (by omega : ¬ base + 1000 + (2000 + u) ≤ base + 3000)]
        rw [if_pos (by omega : base + 1000 + (2000 + u) ≤ base + 4000)]
        simp only [Prod.mk.injEq]
        constructor <;> (push_cast; ring)
    · rw [timeToValues_fTrans]
      by_cases hw : u = 1000
      · subst hw
        have hm : (base + 4000 + 1000 - (base + 1000)) % 4000 = 0 := by omega
        rw [hm]
        simp only [fTrans, seekFrames, lerp]
        rw [if_pos (by omega : base + 1000 + 0 ≤ base + 2000)]
        simp only [Prod.mk.injEq]
        constructor <;> (push_cast; field_simp; try ring)
      · have hm : (base + 4000 + u - (base + 1000)) % 4000 = 3000 + u := by
          omega
        rw [hm]
        simp only [fTrans, seekFrames, lerp]
        by_cases h0 : u = 0
        · subst h0
          rw [if_neg (by omega : ¬ base + 1000 + (3000 + 0) ≤ base + 2000)]
          rw [if_neg (by omega : ¬ base + 1000 + (3000 + 0) ≤ base + 3000)]
          rw [if_pos (by omega : base + 1000 + (3000 + 0) ≤ base + 4000)]
          simp only [Prod.mk.injEq]
          constructor <;> (push_cast; field_simp; try ring)
        · rw [if_neg (by omega : ¬ base + 1000 + (3000 + u) ≤ base + 2000)]
          rw [if_neg (by omega : ¬ base + 1000 + (3000 + u) ≤ base + 3000)]
          rw [if_neg (by omega : ¬ base + 1000 + (3000 + u) ≤ base + 4000)]
          rw [if_pos (by omega : base + 1000 + (3000 + u) ≤ base + 5000)]
          simp only [Prod.mk.injEq]
          constructor <;> (push_cast; ring)

/-- Witness for C4 at concrete times: periodicity at t = 4500 and the first
segment formula at u = 500. -/
theorem C4_offset_periodic_piecewise_linear_witness :
    (fTrans 0).timeToValues (4500 + 4000) = (fTrans 0).timeToValues 4500
    ∧ ((0 : ℤ) ≤ 500 ∧ (500 : ℤ) ≤ 1000)
    ∧ (fTrans 0).timeToValues (0 + 1000 + 500) = (0, (500 : ℚ) / 1000) :=
  ⟨(C4_offset_periodic_piecewise_linear 0 4500).1,
   ⟨by norm_num, by norm_num⟩,
   ((C4_offset_periodic_piecewise_linear 0 0).2 500 (by norm_num)
     (by norm_num)).1⟩
